import Mathlib

/-!
Shallow embedding of the RP2040 peripheral-controller firmware
(src/firmware/src/main.cpp, i2c_registers.h, pin_config.h).

The 128-byte register bank is modelled as a function `Nat → Nat`
(byte at each address, exactly as the C code accesses the packed
struct through a `uint8_t*`).  Machine integers are Nat in their
two's-complement byte representation, with explicit `% 2^w`
wrapping where the C arithmetic wraps.  Times are `uint32_t`
milliseconds; `wsub` is the wrapping 32-bit subtraction the C
`now - then` performs.
-/

namespace RollStreamer

/-- Pointwise update of a byte store, as `reg_ptr[a] = v`. -/
def bupd (b : Nat → Nat) (a v : Nat) : Nat → Nat :=
  fun x => if x = a then v else b x

/-- Wrapping `uint32_t` subtraction `a - b`. -/
def wsub (a b : Nat) : Nat :=
  (a % 4294967296 + 4294967296 - b % 4294967296) % 4294967296

/-- Signed value of a two's-complement byte (`int8_t`). -/
def toInt8 (n : Nat) : Int :=
  if n % 256 < 128 then (n % 256 : Int) else (n % 256 : Int) - 256

/-- Two's-complement byte of a signed value (`int8_t` wrap-around). -/
def wrap8 (x : Int) : Nat := (x % 256).toNat

/-- Signed value of a two's-complement 16-bit word (`int16_t`). -/
def toInt16 (n : Nat) : Int :=
  if n % 65536 < 32768 then (n % 65536 : Int) else (n % 65536 : Int) - 65536

/-- Two's-complement 16-bit word of a signed value (`int16_t` wrap-around). -/
def wrap16 (x : Int) : Nat := (x % 65536).toNat

/-- Whole firmware state: the register bank plus the private globals of
main.cpp (encoder counters, debounce state, button classifier state) and
the PWM duty last written to each GPIO pin. -/
structure Machine where
  bank : Nat → Nat
  encoder_position : Nat
  encoder_delta : Nat
  encoder_state : Nat
  input_state_low : Nat
  input_state_high : Nat
  input_last_change : Nat → Nat
  encoder_button_state : Nat
  encoder_button_press_time : Nat
  encoder_button_last_release : Nat
  pwm : Nat → Nat

/-- `i2c_registers_init`: memset the bank to zero then set the defaults.
Only the register bank is touched; the private globals of main.cpp are
not part of the struct and stay as they are. -/
def init_bank : Nat → Nat := fun a =>
  if a = 0x00 then 0x52
  else if a = 0x01 then 1
  else if a = 0x10 then 1
  else if a = 0x11 then 1
  else if a = 0x30 then 128
  else if a = 0x50 then 0xFF
  else if a = 0x51 then 0x0F
  else if a = 0x70 then 1
  else if a = 0x71 then 50
  else 0

def i2c_registers_init (s : Machine) : Machine :=
  { s with bank := init_bank }

/-- Machine state right after `setup()` ran: fresh bank, zeroed globals. -/
def initMachine : Machine :=
  { bank := init_bank
    encoder_position := 0
    encoder_delta := 0
    encoder_state := 0
    input_state_low := 0xFF
    input_state_high := 0x0F
    input_last_change := fun _ => 0
    encoder_button_state := 0
    encoder_button_press_time := 0
    encoder_button_last_release := 0
    pwm := fun _ => 0 }

/-- The quadrature transition table of `encoder_isr` (row = previous
2-bit state, column = new 2-bit state). -/
def transition_table (prev cur : Nat) : Int :=
  match prev, cur with
  | 0, 0 => 0 | 0, 1 => -1 | 0, 2 => 1  | 0, 3 => 0
  | 1, 0 => 1 | 1, 1 => 0  | 1, 2 => 0  | 1, 3 => -1
  | 2, 0 => -1 | 2, 1 => 0 | 2, 2 => 0  | 2, 3 => 1
  | 3, 0 => 0 | 3, 1 => 1  | 3, 2 => -1 | 3, 3 => 0
  | _, _ => 0

/-- `encoder_isr`, given the levels of channels A and B. -/
def encoder_isr (s : Machine) (a b : Bool) : Machine :=
  let new_state := (if a then 2 else 0) + (if b then 1 else 0)
  let delta := transition_table s.encoder_state new_state
  let s1 := { s with encoder_state := new_state }
  if delta ≠ 0 then
    { s1 with
        encoder_position := wrap16 (toInt16 s1.encoder_position + delta)
        encoder_delta := wrap8 (toInt8 s1.encoder_delta + delta) }
  else s1

/-- Run `encoder_isr` over a list of sampled (A, B) edge readings. -/
def run_isr (s : Machine) (es : List (Bool × Bool)) : Machine :=
  es.foldl (fun t e => encoder_isr t e.1 e.2) s

/-- Net transition-table displacement of an edge sequence starting from
quadrature state `q0`. -/
def net_disp (q0 : Nat) (es : List (Bool × Bool)) : Int :=
  match es with
  | [] => 0
  | e :: rest =>
      let ns := (if e.1 then 2 else 0) + (if e.2 then 1 else 0)
      transition_table q0 ns + net_disp ns rest

/-- `update_encoder`: atomically sample and zero the ISR delta, publish
position (little-endian) and delta into the bank, flag the status bit. -/
def update_encoder (s : Machine) : Machine :=
  let pos := s.encoder_position
  let delta := s.encoder_delta
  let b := bupd s.bank 0x60 (pos % 256)
  let b := bupd b 0x61 (pos / 256 % 256)
  let b := bupd b 0x62 delta
  let b := if delta ≠ 0 then bupd b 0x11 (b 0x11 ||| 64) else b
  { s with encoder_delta := 0, bank := b }

/-- `i2c_register_read`: bounds check, fetch, then read-side auto-clear
of the changed bitmaps and of the encoder-changed status bit. -/
def i2c_register_read (s : Machine) (a : Nat) : Nat × Machine :=
  if 128 ≤ a then
    (0xFF, { s with bank := bupd s.bank 0x12 (s.bank 0x12 ||| 2) })
  else
    let v := s.bank a
    if a = 0x52 then
      let b := bupd s.bank 0x52 0
      let b := if b 0x53 = 0 then bupd b 0x11 (b 0x11 &&& 0xDF) else b
      (v, { s with bank := b })
    else if a = 0x53 then
      let b := bupd s.bank 0x53 0
      let b := if b 0x52 = 0 then bupd b 0x11 (b 0x11 &&& 0xDF) else b
      (v, { s with bank := b })
    else if a = 0x62 then
      (v, { s with bank := bupd s.bank 0x11 (s.bank 0x11 &&& 0xBF) })
    else
      (v, s)

/-- `i2c_execute_command`: the command switch of main.cpp.  Note the
switch handles NOP, RESET and the six TEST_* codes only; every other
value (0x02 and 0x10 included) falls to `default`. -/
def i2c_execute_command (s : Machine) (command : Nat) : Bool × Machine :=
  if command = 0x00 then (true, s)
  else if command = 0x01 then (true, i2c_registers_init s)
  else if command = 0x11 ∨ command = 0x12 ∨ command = 0x13 ∨
          command = 0x20 ∨ command = 0x30 ∨ command = 0xFF then (true, s)
  else (false, { s with bank := bupd s.bank 0x12 (s.bank 0x12 ||| 4) })

/-- `i2c_register_write`: read-only check, command-port dispatch, bounds
check, store, then the CONTROL side effects. -/
def i2c_register_write (s : Machine) (a v : Nat) : Bool × Machine :=
  if a ≤ 3 then
    (false, { s with bank := bupd s.bank 0x12 (s.bank 0x12 ||| 2) })
  else if a = 0xF0 then
    i2c_execute_command s v
  else if 128 ≤ a then
    (false, { s with bank := bupd s.bank 0x12 (s.bank 0x12 ||| 2) })
  else
    let s1 := { s with bank := bupd s.bank a v }
    let s2 :=
      if a = 0x10 then
        let sa :=
          if v &&& 2 ≠ 0 then
            let b := bupd s1.bank 0x60 0
            let b := bupd b 0x61 0
            let b := bupd b 0x62 0
            let b := bupd b 0x10 (b 0x10 &&& 0xFD)
            { s1 with encoder_position := 0, encoder_delta := 0, bank := b }
          else s1
        if v &&& 4 ≠ 0 then
          let b := bupd sa.bank 0x52 0
          let b := bupd b 0x53 0
          let b := bupd b 0x11 (b 0x11 &&& 0xDF)
          let b := bupd b 0x10 (b 0x10 &&& 0xFB)
          { sa with bank := b }
        else sa
      else s1
    (true, s2)

/-- Accumulator of the 12-channel scan loop in `update_inputs`:
the bytes `new_state_low` / `new_state_high` being built and the
`input_last_change` array. -/
structure InScan where
  new_low : Nat
  new_high : Nat
  lc : Nat → Nat

/-- Write bit `i` of the accumulator (channels 0-7 in the low byte,
8-11 in the high byte), as the C `|=` / `&= ~` pairs do. -/
def scan_set (acc : InScan) (i : Nat) (bit : Bool) : InScan :=
  if i < 8 then
    if bit then { acc with new_low := acc.new_low ||| (1 <<< i) }
    else { acc with new_low := acc.new_low &&& (255 ^^^ (1 <<< i)) }
  else
    if bit then { acc with new_high := acc.new_high ||| (1 <<< (i - 8)) }
    else { acc with new_high := acc.new_high &&& (255 ^^^ (1 <<< (i - 8))) }

/-- One iteration of the `update_inputs` scan loop for channel `i`.
The comparison reproduces the C expression
`state != ((i < 8 ? input_state_low : input_state_high) & (1 << (i % 8)))`,
a `bool` (0/1) compared against the masked byte itself. -/
def scan_step (sl sh : Nat) (raw : Nat → Bool) (now : Nat)
    (acc : InScan) (i : Nat) : InScan :=
  let state := raw i
  let masked := (if i < 8 then sl else sh) &&& (1 <<< (i % 8))
  if (if state then 1 else 0) ≠ masked then
    if 50 ≤ wsub now (acc.lc i) then
      let acc := { acc with lc := fun j => if j = i then now else acc.lc j }
      scan_set acc i state
    else
      scan_set acc i
        (if i < 8 then sl &&& (1 <<< i) ≠ 0 else sh &&& (1 <<< (i - 8)) ≠ 0)
  else
    scan_set acc i state

/-- The full 12-channel scan of `update_inputs`, starting from the C
initial values `new_state_low = 0xFF`, `new_state_high = 0x0F`. -/
def input_scan (sl sh : Nat) (raw : Nat → Bool) (lc0 : Nat → Nat)
    (now : Nat) : InScan :=
  (List.range 12).foldl (scan_step sl sh raw now)
    { new_low := 0xFF, new_high := 0x0F, lc := lc0 }

/-- `update_inputs`: debounce scan, change detection, publication of the
stable bitmaps, then the button classifier.  `btnPin` is the raw level of
the (active-low) button pin. -/
def update_inputs (s : Machine) (raw : Nat → Bool) (btnPin : Bool)
    (now : Nat) : Machine :=
  let r := input_scan s.input_state_low s.input_state_high raw
    s.input_last_change now
  let changed_low := s.input_state_low ^^^ r.new_low
  let changed_high := s.input_state_high ^^^ r.new_high
  let b := s.bank
  let b :=
    if changed_low ≠ 0 ∨ changed_high ≠ 0 then
      let b := bupd b 0x52 (b 0x52 ||| changed_low)
      let b := bupd b 0x53 (b 0x53 ||| changed_high)
      bupd b 0x11 (b 0x11 ||| 32)
    else b
  let b := bupd b 0x50 r.new_low
  let b := bupd b 0x51 r.new_high
  let pressed := !btnPin
  let st := s.encoder_button_state
  let res :=
    if pressed = true ∧ st = 0 then
      let b1 := bupd b 0x11 (b 0x11 ||| 128)
      let st1 := if wsub now s.encoder_button_last_release < 300 then 3 else 1
      (st1, now, s.encoder_button_last_release, b1)
    else if pressed = true ∧ st = 1 then
      ((if 1000 ≤ wsub now s.encoder_button_press_time then 2 else st),
        s.encoder_button_press_time, s.encoder_button_last_release, b)
    else if pressed = false ∧ st ≠ 0 then
      (0, s.encoder_button_press_time, now, bupd b 0x11 (b 0x11 &&& 127))
    else
      (st, s.encoder_button_press_time, s.encoder_button_last_release, b)
  { s with
      bank := bupd res.2.2.2 0x63 res.1
      input_state_low := r.new_low
      input_state_high := r.new_high
      input_last_change := r.lc
      encoder_button_state := res.1
      encoder_button_press_time := res.2.1
      encoder_button_last_release := res.2.2.1 }

/-- VU-meter stage of `update_pwm_outputs` (`ctrl` is the CONTROL byte
read at the top of the function).  PWM pins by GPIO number: VU left
IN1/IN2 = 0/1, VU right IN1/IN2 = 4/5. -/
def pwm_vu (s : Machine) (ctrl : Nat) : Machine :=
  if ctrl &&& 8 ≠ 0 ∧ s.bank 0x22 ≠ 0xFF then
    { s with
        pwm := bupd (bupd (bupd (bupd s.pwm 0 (s.bank 0x20)) 1 0)
          4 (s.bank 0x21)) 5 0
        bank := bupd s.bank 0x11 (s.bank 0x11 ||| 4) }
  else
    { s with
        pwm := bupd (bupd (bupd (bupd s.pwm 0 0) 1 0) 4 0) 5 0
        bank := bupd s.bank 0x11 (s.bank 0x11 &&& 251) }

/-- Backlight stage of `update_pwm_outputs` (pins 6/7). -/
def pwm_backlight (s : Machine) (ctrl : Nat) : Machine :=
  if ctrl &&& 16 ≠ 0 ∧ s.bank 0x31 ≠ 0xFF then
    { s with
        pwm := bupd (bupd s.pwm 6 (s.bank 0x30)) 7 0
        bank := bupd s.bank 0x11 (s.bank 0x11 ||| 8) }
  else
    { s with
        pwm := bupd (bupd s.pwm 6 0) 7 0
        bank := bupd s.bank 0x11 (s.bank 0x11 &&& 247) }

/-- Tape-motor stage of `update_pwm_outputs` (pins 8/9), with the
four-way direction switch. -/
def pwm_tape (s : Machine) (ctrl : Nat) : Machine :=
  if ctrl &&& 32 ≠ 0 ∧ s.bank 0x42 ≠ 0xFF then
    if s.bank 0x41 = 1 then
      { s with
          pwm := bupd (bupd s.pwm 8 (s.bank 0x40)) 9 0
          bank := bupd s.bank 0x11 (s.bank 0x11 ||| 16) }
    else if s.bank 0x41 = 2 then
      { s with
          pwm := bupd (bupd s.pwm 8 0) 9 (s.bank 0x40)
          bank := bupd s.bank 0x11 (s.bank 0x11 ||| 16) }
    else if s.bank 0x41 = 3 then
      { s with
          pwm := bupd (bupd s.pwm 8 255) 9 255
          bank := bupd s.bank 0x11 (s.bank 0x11 &&& 239) }
    else
      { s with
          pwm := bupd (bupd s.pwm 8 0) 9 0
          bank := bupd s.bank 0x11 (s.bank 0x11 &&& 239) }
  else
    { s with
        pwm := bupd (bupd s.pwm 8 0) 9 0
        bank := bupd s.bank 0x11 (s.bank 0x11 &&& 239) }

/-- `update_pwm_outputs`: drive the four PWM pairs from the bank and
refresh the VU_ACTIVE / BACKLIGHT_ON / TAPE_RUNNING status bits.  The
CONTROL enable bits are read once at the top, as in the C code. -/
def update_pwm_outputs (s : Machine) : Machine :=
  let ctrl := s.bank 0x10
  pwm_tape (pwm_backlight (pwm_vu s ctrl) ctrl) ctrl

/-- One 10 ms tick of `loop()`: inputs, encoder publication, outputs. -/
def tick (s : Machine) (raw : Nat → Bool) (btnPin : Bool) (now : Nat) :
    Machine :=
  update_pwm_outputs (update_encoder (update_inputs s raw btnPin now))

/-- Modelled from the spec: saturation ("clamping") of a displacement to
the `i8` range [-128, 127], as §4.3 and testable property 4 describe it.
The source has no such clamping; this definition exists to compare the
spec's words with the source's wrap-around arithmetic. -/
def clampI8 (x : Int) : Int := max (-128) (min 127 x)

/-- A clockwise quadrature reading: step `k` of the repeating cycle
`10, 11, 01, 00`, each transition worth +1 in the table. -/
def cwQuad (k : Nat) : Bool × Bool :=
  match k % 4 with
  | 0 => (true, false)
  | 1 => (true, true)
  | 2 => (false, true)
  | _ => (false, false)

/-- `n` successive clockwise quadrature readings. -/
def cwSeq (n : Nat) : List (Bool × Bool) :=
  (List.range n).map cwQuad

/-! ### Generic bit lemmas used by several proofs -/

lemma lor_land_eq_zero (x m k : Nat) (h : m &&& k = 0) :
    (x ||| m) &&& k = x &&& k := by
  apply Nat.eq_of_testBit_eq
  intro i
  have hm : (m &&& k).testBit i = false := by simp [h]
  rw [Nat.testBit_land] at hm
  rw [Nat.testBit_land, Nat.testBit_land, Nat.testBit_lor]
  rcases Bool.and_eq_false_iff.mp hm with h' | h' <;> simp [h']

lemma land_land_absorb (x m k : Nat) (h : m &&& k = k) :
    (x &&& m) &&& k = x &&& k := by
  rw [Nat.land_assoc, h]

lemma land_mask_zero (x m k : Nat) (h : m &&& k = 0) :
    (x &&& m) &&& k = 0 := by
  rw [Nat.land_assoc, h, Nat.and_zero]

lemma lor_land_self (x m : Nat) : (x ||| m) &&& m = m := by
  apply Nat.eq_of_testBit_eq
  intro i
  rw [Nat.testBit_land, Nat.testBit_lor]
  cases hx : x.testBit i <;> cases hm : m.testBit i <;> rfl

/-! ### C7 -/

/-- C7 (counterexample): a host read of the command port 0xF0 from the
fresh register bank returns 0xFF, not 0, and sets ERROR.INVALID_REG
(the error byte goes from 0 to 2). -/
theorem C7_cex :
    (i2c_register_read initMachine 0xF0).1 = 0xFF ∧
    (i2c_register_read initMachine 0xF0).1 ≠ 0 ∧
    initMachine.bank 0x12 = 0 ∧
    (i2c_register_read initMachine 0xF0).2.bank 0x12 = 2 := by
  decide

/-- C7 (amended): for every host read of address 0xF0, the returned byte
is 0xFF and the read sets ERROR.INVALID_REG, because 0xF0 lies beyond
the 128-byte register bank and fails the bounds check. -/
theorem C7_read_command_port (s : Machine) :
    (i2c_register_read s 0xF0).1 = 0xFF ∧
    (i2c_register_read s 0xF0).2.bank 0x12 = s.bank 0x12 ||| 2 := by
  constructor <;> simp [i2c_register_read, bupd]

/-! ### C8 -/

/-- C8 (counterexample): writing 0xC0 to CONTROL leaves bits 6
(SAVE_CONFIG) and 7 (LOAD_CONFIG) set in the stored byte; they do not
self-clear. -/
theorem C8_cex :
    (i2c_register_write initMachine 0x10 0xC0).2.bank 0x10 = 0xC0 ∧
    (i2c_register_write initMachine 0x10 0xC0).2.bank 0x10 &&& 64 ≠ 0 ∧
    (i2c_register_write initMachine 0x10 0xC0).2.bank 0x10 &&& 128 ≠ 0 := by
  decide

/-- C8 (amended): after any host write of `v` to CONTROL (0x10), the
stored CONTROL byte has bits 1 (RESET_ENCODER) and 2 (CLEAR_INPUTS)
clear, while bits 6 (SAVE_CONFIG) and 7 (LOAD_CONFIG) keep exactly the
value written. -/
theorem C8_control_self_clear (s : Machine) (v : Nat) :
    (i2c_register_write s 0x10 v).2.bank 0x10 &&& 2 = 0 ∧
    (i2c_register_write s 0x10 v).2.bank 0x10 &&& 4 = 0 ∧
    (i2c_register_write s 0x10 v).2.bank 0x10 &&& 64 = v &&& 64 ∧
    (i2c_register_write s 0x10 v).2.bank 0x10 &&& 128 = v &&& 128 := by
  unfold i2c_register_write
  norm_num
  split_ifs with h1 h2 h3 <;> simp only [bupd] <;> norm_num
  · exact ⟨h2, h1⟩
  · exact ⟨land_mask_zero _ _ _ (by decide),
      by rw [land_land_absorb _ _ _ (by decide)]; exact h1,
      land_land_absorb _ _ _ (by decide),
      land_land_absorb _ _ _ (by decide)⟩
  · exact ⟨by rw [land_land_absorb _ _ _ (by decide)]; exact h3,
      land_mask_zero _ _ _ (by decide),
      land_land_absorb _ _ _ (by decide),
      land_land_absorb _ _ _ (by decide)⟩
  · exact ⟨by rw [land_land_absorb _ _ _ (by decide)]; exact land_mask_zero _ _ _ (by decide),
      land_mask_zero _ _ _ (by decide),
      by rw [land_land_absorb _ _ _ (by decide), land_land_absorb _ _ _ (by decide)],
      by rw [land_land_absorb _ _ _ (by decide), land_land_absorb _ _ _ (by decide)]⟩

/-! ### C9 -/

/-- C9: a host write of any value `v` to STATUS (0x11) or ERROR (0x12)
is accepted (returns true, raises no error bit) and stores `v` verbatim,
so a subsequent read returns `v`; writing to 0x11 leaves the ERROR byte
untouched, and writing `v` to 0x12 replaces the sticky error bitmap by
`v` — in particular writing 0x00 clears it without a soft reset. -/
theorem C9_status_error_writable (s : Machine) (v : Nat) :
    (i2c_register_write s 0x11 v).1 = true ∧
    (i2c_register_write s 0x11 v).2.bank 0x11 = v ∧
    (i2c_register_write s 0x11 v).2.bank 0x12 = s.bank 0x12 ∧
    (i2c_register_read (i2c_register_write s 0x11 v).2 0x11).1 = v ∧
    (i2c_register_write s 0x12 v).1 = true ∧
    (i2c_register_write s 0x12 v).2.bank 0x12 = v ∧
    (i2c_register_read (i2c_register_write s 0x12 v).2 0x12).1 = v := by
  refine ⟨?_, ?_, ?_, ?_, ?_, ?_, ?_⟩ <;>
    simp [i2c_register_write, i2c_register_read, bupd]

/-! ### C2 -/

/-- C2 (counterexample): writing FACTORY_RESET (0x02) or CALIBRATE_VU
(0x10) to the command port is rejected: `i2c_execute_command` returns
false and sets ERROR.INVALID_CMD, although the claim lists both among
the commands that return ok. -/
theorem C2_cex :
    (i2c_execute_command initMachine 0x02).1 = false ∧
    (i2c_execute_command initMachine 0x02).2.bank 0x12 &&& 4 = 4 ∧
    (i2c_execute_command initMachine 0x10).1 = false ∧
    (i2c_execute_command initMachine 0x10).2.bank 0x12 &&& 4 = 4 := by
  decide

/-- C2 (amended): starting from a state whose INVALID_CMD bit is clear,
`i2c_execute_command c` behaves as follows: if `c` is NOP (0x00), RESET
(0x01), TEST_VU_LEFT (0x11), TEST_VU_RIGHT (0x12), TEST_VU_BOTH (0x13),
TEST_BACKLIGHT (0x20), TEST_TAPE_MOTOR (0x30) or TEST_ALL (0xFF) it
returns ok and leaves ERROR.INVALID_CMD clear; for every other value —
FACTORY_RESET (0x02) and CALIBRATE_VU (0x10) included — it returns an
error and sets ERROR.INVALID_CMD. -/
theorem C2_command_dispatch (s : Machine) (c : Nat)
    (h0 : s.bank 0x12 &&& 4 = 0) :
    ((c = 0x00 ∨ c = 0x01 ∨ c = 0x11 ∨ c = 0x12 ∨ c = 0x13 ∨
        c = 0x20 ∨ c = 0x30 ∨ c = 0xFF) →
      (i2c_execute_command s c).1 = true ∧
        (i2c_execute_command s c).2.bank 0x12 &&& 4 = 0) ∧
    (¬(c = 0x00 ∨ c = 0x01 ∨ c = 0x11 ∨ c = 0x12 ∨ c = 0x13 ∨
        c = 0x20 ∨ c = 0x30 ∨ c = 0xFF) →
      (i2c_execute_command s c).1 = false ∧
        (i2c_execute_command s c).2.bank 0x12 &&& 4 = 4) := by
  unfold i2c_execute_command
  split_ifs with h1 h2 h3
  · exact ⟨fun _ => ⟨rfl, h0⟩, fun hn => absurd (Or.inl h1) hn⟩
  · refine ⟨fun _ => ⟨rfl, ?_⟩, fun hn => absurd (Or.inr (Or.inl h2)) hn⟩
    simp [i2c_registers_init, init_bank]
  · exact ⟨fun _ => ⟨rfl, h0⟩, fun hn => absurd (by tauto) hn⟩
  · refine ⟨fun hc => absurd hc (by tauto), fun _ => ⟨rfl, ?_⟩⟩
    simp only [bupd]
    norm_num
    rw [lor_land_self]

/-- C2 witness: the dispatch characterization applied at TEST_VU_LEFT
(accepted, no error) and at the unlisted command 0x77 (rejected,
INVALID_CMD set). -/
theorem C2_command_dispatch_witness :
    ((i2c_execute_command initMachine 0x11).1 = true ∧
      (i2c_execute_command initMachine 0x11).2.bank 0x12 &&& 4 = 0) ∧
    ((i2c_execute_command initMachine 0x77).1 = false ∧
      (i2c_execute_command initMachine 0x77).2.bank 0x12 &&& 4 = 4) :=
  ⟨(C2_command_dispatch initMachine 0x11 (by decide)).1 (by decide),
    (C2_command_dispatch initMachine 0x77 (by decide)).2 (by decide)⟩

/-! ### C4 -/

/-- C4: a host write to CONTROL (0x10) of any value with bit 1
(RESET_ENCODER) set succeeds, zeroes the private encoder position and
delta accumulator and the mirrored bank bytes 0x60/0x61/0x62 — so the
next host reads of ENCODER_POSITION and ENCODER_DELTA return 0 — and
leaves bit 1 of the stored CONTROL byte clear. -/
theorem C4_reset_encoder (s : Machine) (v : Nat) (h : v &&& 2 ≠ 0) :
    (i2c_register_write s 0x10 v).1 = true ∧
    (i2c_register_write s 0x10 v).2.encoder_position = 0 ∧
    (i2c_register_write s 0x10 v).2.encoder_delta = 0 ∧
    (i2c_register_write s 0x10 v).2.bank 0x60 = 0 ∧
    (i2c_register_write s 0x10 v).2.bank 0x61 = 0 ∧
    (i2c_register_write s 0x10 v).2.bank 0x62 = 0 ∧
    (i2c_register_read (i2c_register_write s 0x10 v).2 0x60).1 = 0 ∧
    (i2c_register_read (i2c_register_write s 0x10 v).2 0x61).1 = 0 ∧
    (i2c_register_read (i2c_register_write s 0x10 v).2 0x62).1 = 0 ∧
    (i2c_register_write s 0x10 v).2.bank 0x10 &&& 2 = 0 := by
  unfold i2c_register_write
  norm_num
  split_ifs with h4 <;> simp [i2c_register_read, bupd]
  · exact land_mask_zero _ _ _ (by decide)
  · rw [land_land_absorb _ _ _ (by decide)]
    exact land_mask_zero _ _ _ (by decide)

/-- C4 witness: the reset at the fresh machine with `v = 2`. -/
theorem C4_reset_encoder_witness :
    (2 : Nat) &&& 2 ≠ 0 ∧
    ((i2c_register_write initMachine 0x10 2).1 = true ∧
      (i2c_register_write initMachine 0x10 2).2.encoder_position = 0 ∧
      (i2c_register_write initMachine 0x10 2).2.encoder_delta = 0 ∧
      (i2c_register_write initMachine 0x10 2).2.bank 0x60 = 0 ∧
      (i2c_register_write initMachine 0x10 2).2.bank 0x61 = 0 ∧
      (i2c_register_write initMachine 0x10 2).2.bank 0x62 = 0 ∧
      (i2c_register_read (i2c_register_write initMachine 0x10 2).2 0x60).1 = 0 ∧
      (i2c_register_read (i2c_register_write initMachine 0x10 2).2 0x61).1 = 0 ∧
      (i2c_register_read (i2c_register_write initMachine 0x10 2).2 0x62).1 = 0 ∧
      (i2c_register_write initMachine 0x10 2).2.bank 0x10 &&& 2 = 0) :=
  ⟨by decide, C4_reset_encoder initMachine 2 (by decide)⟩

/-! ### C1 -/

lemma ite_bupd_ne (c : Prop) [Decidable c] (b : Nat → Nat) (a v x : Nat)
    (h : x ≠ a) :
    (if c then bupd b a v else b) x = b x := by
  split <;> simp [bupd, h]

lemma wrap16_lt (x : Int) : wrap16 x < 65536 := by
  unfold wrap16; omega

lemma wrap8_lt (x : Int) : wrap8 x < 256 := by
  unfold wrap8; omega

lemma wrap16_toInt16 (n : Nat) (h : n < 65536) : wrap16 (toInt16 n) = n := by
  unfold wrap16 toInt16; split <;> omega

lemma wrap8_toInt8 (n : Nat) (h : n < 256) : wrap8 (toInt8 n) = n := by
  unfold wrap8 toInt8; split <;> omega

lemma wrap16_toInt16_wrap16_add (x y : Int) :
    wrap16 (toInt16 (wrap16 x) + y) = wrap16 (x + y) := by
  have h : toInt16 (wrap16 x) % 65536 = x % 65536 := by
    unfold toInt16 wrap16; split <;> omega
  unfold wrap16 at h ⊢
  rw [Int.add_emod, h, ← Int.add_emod]

lemma wrap8_toInt8_wrap8_add (x y : Int) :
    wrap8 (toInt8 (wrap8 x) + y) = wrap8 (x + y) := by
  have h : toInt8 (wrap8 x) % 256 = x % 256 := by
    unfold toInt8 wrap8; split <;> omega
  unfold wrap8 at h ⊢
  rw [Int.add_emod, h, ← Int.add_emod]

lemma encoder_isr_state (s : Machine) (a b : Bool) :
    (encoder_isr s a b).encoder_state
      = (if a then 2 else 0) + (if b then 1 else 0) := by
  by_cases h0 : transition_table s.encoder_state
      ((if a then 2 else 0) + (if b then 1 else 0)) = 0 <;>
    simp [encoder_isr, h0]

lemma encoder_isr_pos (s : Machine) (a b : Bool)
    (hp : s.encoder_position < 65536) :
    (encoder_isr s a b).encoder_position
      = wrap16 (toInt16 s.encoder_position +
          transition_table s.encoder_state
            ((if a then 2 else 0) + (if b then 1 else 0))) := by
  by_cases h0 : transition_table s.encoder_state
      ((if a then 2 else 0) + (if b then 1 else 0)) = 0 <;>
    simp [encoder_isr, h0]
  exact (wrap16_toInt16 _ hp).symm

lemma encoder_isr_delta (s : Machine) (a b : Bool)
    (hd : s.encoder_delta < 256) :
    (encoder_isr s a b).encoder_delta
      = wrap8 (toInt8 s.encoder_delta +
          transition_table s.encoder_state
            ((if a then 2 else 0) + (if b then 1 else 0))) := by
  by_cases h0 : transition_table s.encoder_state
      ((if a then 2 else 0) + (if b then 1 else 0)) = 0 <;>
    simp [encoder_isr, h0]
  exact (wrap8_toInt8 _ hd).symm

/-- Running the encoder ISR over any edge sequence moves the position
and the delta accumulator by the net transition-table displacement, each
with its own two's-complement wrap-around. -/
lemma run_isr_spec (es : List (Bool × Bool)) (s : Machine)
    (hp : s.encoder_position < 65536) (hd : s.encoder_delta < 256) :
    (run_isr s es).encoder_position
        = wrap16 (toInt16 s.encoder_position + net_disp s.encoder_state es) ∧
    (run_isr s es).encoder_delta
        = wrap8 (toInt8 s.encoder_delta + net_disp s.encoder_state es) := by
  induction es generalizing s with
  | nil =>
      refine ⟨?_, ?_⟩ <;> simp [run_isr, net_disp]
      · exact (wrap16_toInt16 _ hp).symm
      · exact (wrap8_toInt8 _ hd).symm
  | cons e es ih =>
      have hrun : run_isr s (e :: es) = run_isr (encoder_isr s e.1 e.2) es := rfl
      have hp' : (encoder_isr s e.1 e.2).encoder_position < 65536 := by
        rw [encoder_isr_pos s e.1 e.2 hp]; exact wrap16_lt _
      have hd' : (encoder_isr s e.1 e.2).encoder_delta < 256 := by
        rw [encoder_isr_delta s e.1 e.2 hd]; exact wrap8_lt _
      have hrec := ih (encoder_isr s e.1 e.2) hp' hd'
      have hnd : net_disp s.encoder_state (e :: es)
          = transition_table s.encoder_state
              ((if e.1 then 2 else 0) + (if e.2 then 1 else 0)) +
            net_disp ((if e.1 then 2 else 0) + (if e.2 then 1 else 0)) es := rfl
      constructor
      · rw [hrun, hrec.1, encoder_isr_state, encoder_isr_pos s e.1 e.2 hp,
          wrap16_toInt16_wrap16_add, add_assoc, hnd]
      · rw [hrun, hrec.2, encoder_isr_state, encoder_isr_delta s e.1 e.2 hd,
          wrap8_toInt8_wrap8_add, add_assoc, hnd]

/-- C1 (counterexample): 129 clockwise quadrature steps within one tick
give net displacement d = 129; the published and host-read ENCODER_DELTA
byte is 129, i.e. −127 as an i8 — the accumulator wrapped around instead
of saturating to clamp(129) = 127.  (The position does advance by
129 mod 2¹⁶, as claimed.) -/
theorem C1_cex :
    net_disp 0 (cwSeq 129) = 129 ∧
    clampI8 (net_disp 0 (cwSeq 129)) = 127 ∧
    (i2c_register_read (update_encoder (run_isr initMachine (cwSeq 129))) 0x62).1
      = 129 ∧
    toInt8 ((i2c_register_read (update_encoder (run_isr initMachine (cwSeq 129)))
      0x62).1) = -127 ∧
    toInt8 ((i2c_register_read (update_encoder (run_isr initMachine (cwSeq 129)))
      0x62).1) ≠ clampI8 (net_disp 0 (cwSeq 129)) ∧
    (update_encoder (run_isr initMachine (cwSeq 129))).bank 0x60 = 129 ∧
    (update_encoder (run_isr initMachine (cwSeq 129))).bank 0x61 = 0 := by
  set_option maxRecDepth 40000 in decide

/-- C1 (amended): for every edge sequence within one tick with net
transition-table displacement d (the delta accumulator starting the tick
at 0, as the previous tick left it), the published ENCODER_DELTA byte —
returned unchanged by the next host read — is d reduced modulo 2⁸
(two's-complement i8 wrap-around, not saturation), and ENCODER_POSITION
(0x60 low / 0x61 high) advances by exactly d modulo 2¹⁶. -/
theorem C1_encoder_tick (s : Machine) (es : List (Bool × Bool))
    (hp : s.encoder_position < 65536) (hd : s.encoder_delta = 0) :
    (update_encoder (run_isr s es)).bank 0x62
        = wrap8 (net_disp s.encoder_state es) ∧
    (i2c_register_read (update_encoder (run_isr s es)) 0x62).1
        = wrap8 (net_disp s.encoder_state es) ∧
    (update_encoder (run_isr s es)).bank 0x60
        = wrap16 (toInt16 s.encoder_position + net_disp s.encoder_state es) % 256 ∧
    (update_encoder (run_isr s es)).bank 0x61
        = wrap16 (toInt16 s.encoder_position + net_disp s.encoder_state es)
            / 256 % 256 ∧
    (update_encoder (run_isr s es)).encoder_delta = 0 := by
  have hspec := run_isr_spec es s hp (by omega)
  have hdelta : (run_isr s es).encoder_delta = wrap8 (net_disp s.encoder_state es) := by
    rw [hspec.2, hd]
    unfold toInt8
    norm_num
  have hpos := hspec.1
  refine ⟨?_, ?_, ?_, ?_, rfl⟩ <;>
    simp [update_encoder, i2c_register_read, ite_bupd_ne, bupd, hdelta, hpos] <;>
    split <;> simp [bupd]

/-- C1 witness: a single clockwise step from the fresh machine. -/
theorem C1_encoder_tick_witness :
    initMachine.encoder_position < 65536 ∧
    initMachine.encoder_delta = 0 ∧
    ((update_encoder (run_isr initMachine [(true, false)])).bank 0x62
        = wrap8 (net_disp initMachine.encoder_state [(true, false)]) ∧
      (i2c_register_read (update_encoder (run_isr initMachine [(true, false)]))
          0x62).1
        = wrap8 (net_disp initMachine.encoder_state [(true, false)]) ∧
      (update_encoder (run_isr initMachine [(true, false)])).bank 0x60
        = wrap16 (toInt16 initMachine.encoder_position +
            net_disp initMachine.encoder_state [(true, false)]) % 256 ∧
      (update_encoder (run_isr initMachine [(true, false)])).bank 0x61
        = wrap16 (toInt16 initMachine.encoder_position +
            net_disp initMachine.encoder_state [(true, false)]) / 256 % 256 ∧
      (update_encoder (run_isr initMachine [(true, false)])).encoder_delta = 0) :=
  ⟨by decide, by decide, C1_encoder_tick initMachine [(true, false)]
    (by decide) (by decide)⟩

/-! ### C5 -/

lemma or4_bit1 (x : Nat) : (x ||| 4) &&& 2 = x &&& 2 :=
  lor_land_eq_zero _ _ _ (by decide)

lemma or8_bit1 (x : Nat) : (x ||| 8) &&& 2 = x &&& 2 :=
  lor_land_eq_zero _ _ _ (by decide)

lemma or16_bit1 (x : Nat) : (x ||| 16) &&& 2 = x &&& 2 :=
  lor_land_eq_zero _ _ _ (by decide)

lemma or32_bit1 (x : Nat) : (x ||| 32) &&& 2 = x &&& 2 :=
  lor_land_eq_zero _ _ _ (by decide)

lemma or64_bit1 (x : Nat) : (x ||| 64) &&& 2 = x &&& 2 :=
  lor_land_eq_zero _ _ _ (by decide)

lemma or128_bit1 (x : Nat) : (x ||| 128) &&& 2 = x &&& 2 :=
  lor_land_eq_zero _ _ _ (by decide)

lemma and127_bit1 (x : Nat) : (x &&& 127) &&& 2 = x &&& 2 :=
  land_land_absorb _ _ _ (by decide)

lemma and239_bit1 (x : Nat) : (x &&& 239) &&& 2 = x &&& 2 :=
  land_land_absorb _ _ _ (by decide)

lemma and247_bit1 (x : Nat) : (x &&& 247) &&& 2 = x &&& 2 :=
  land_land_absorb _ _ _ (by decide)

lemma and251_bit1 (x : Nat) : (x &&& 251) &&& 2 = x &&& 2 :=
  land_land_absorb _ _ _ (by decide)

lemma pwm_vu_bit1 (s : Machine) (ctrl : Nat) :
    (pwm_vu s ctrl).bank 0x11 &&& 2 = s.bank 0x11 &&& 2 := by
  unfold pwm_vu
  split_ifs <;> simp [bupd, or4_bit1, and251_bit1]

lemma pwm_backlight_bit1 (s : Machine) (ctrl : Nat) :
    (pwm_backlight s ctrl).bank 0x11 &&& 2 = s.bank 0x11 &&& 2 := by
  unfold pwm_backlight
  split_ifs <;> simp [bupd, or8_bit1, and247_bit1]

lemma pwm_tape_bit1 (s : Machine) (ctrl : Nat) :
    (pwm_tape s ctrl).bank 0x11 &&& 2 = s.bank 0x11 &&& 2 := by
  unfold pwm_tape
  split_ifs <;> simp [bupd, or16_bit1, and239_bit1]

lemma update_encoder_bit1 (s : Machine) :
    (update_encoder s).bank 0x11 &&& 2 = s.bank 0x11 &&& 2 := by
  simp only [update_encoder]
  split_ifs <;> simp [bupd, or64_bit1]

lemma update_inputs_bit1 (s : Machine) (raw : Nat → Bool) (btnPin : Bool)
    (now : Nat) :
    (update_inputs s raw btnPin now).bank 0x11 &&& 2 = s.bank 0x11 &&& 2 := by
  simp only [update_inputs]
  split_ifs <;> simp [bupd, or32_bit1, or128_bit1, and127_bit1]

/-- C5 (counterexample): from the fresh machine, an invalid command sets
ERROR bit 2, yet at the end of the next tick STATUS.ERROR (bit 1 of
0x11) is still clear while ERROR (0x12) is non-zero — the OR is never
recomputed. -/
theorem C5_cex :
    (i2c_execute_command initMachine 0x77).2.bank 0x12 = 4 ∧
    ((tick (i2c_execute_command initMachine 0x77).2 (fun _ => true) true 0).bank
      0x11 &&& 2 = 0) ∧
    (tick (i2c_execute_command initMachine 0x77).2 (fun _ => true) true 0).bank
      0x12 = 4 := by
  decide

/-- C5 (amended): the tick never recomputes STATUS.ERROR: bit 1 of the
STATUS byte after any 10 ms tick equals bit 1 before it, whatever the
ERROR register holds, so an operation that sets an ERROR bit is never
reflected in STATUS.ERROR. -/
theorem C5_status_error_static (s : Machine) (raw : Nat → Bool)
    (btnPin : Bool) (now : Nat) :
    (tick s raw btnPin now).bank 0x11 &&& 2 = s.bank 0x11 &&& 2 := by
  simp only [tick, update_pwm_outputs]
  rw [pwm_tape_bit1, pwm_backlight_bit1, pwm_vu_bit1, update_encoder_bit1,
    update_inputs_bit1]

/-! ### C6 -/

/-- C6 (counterexample): with the last release at t = 1000 ms, a press
at t = 1100 ms enters DOUBLE_CLICK; still holding at t = 2200 ms —
1100 ms after the press, past the 1000 ms hold threshold — the state is
still DOUBLE_CLICK (3), not HELD (2): the hold promotion only fires from
PRESSED. -/
theorem C6_cex :
    (update_inputs { initMachine with encoder_button_last_release := 1000 }
        (fun _ => true) false 1100).encoder_button_state = 3 ∧
    (update_inputs { initMachine with encoder_button_last_release := 1000 }
        (fun _ => true) false 1100).encoder_button_press_time = 1100 ∧
    1000 ≤ wsub 2200 1100 ∧
    (update_inputs (update_inputs
        { initMachine with encoder_button_last_release := 1000 }
        (fun _ => true) false 1100) (fun _ => true) false 2200).bank 0x63 = 3 ∧
    (update_inputs (update_inputs
        { initMachine with encoder_button_last_release := 1000 }
        (fun _ => true) false 1100) (fun _ => true) false 2200).bank 0x63 ≠ 2 := by
  decide

/-- C6 (amended): a press within 300 ms of the last release takes
ENCODER_BUTTON directly to DOUBLE_CLICK (3); while the button stays
pressed the state then remains DOUBLE_CLICK — the 1000 ms hold promotion
to HELD (2) happens only from the PRESSED state, so a double-click press
never becomes HELD while held. -/
theorem C6_double_click (s : Machine) (raw : Nat → Bool) (now : Nat) :
    (s.encoder_button_state = 0 → wsub now s.encoder_button_last_release < 300 →
      (update_inputs s raw false now).encoder_button_state = 3 ∧
      (update_inputs s raw false now).bank 0x63 = 3 ∧
      (update_inputs s raw false now).encoder_button_press_time = now) ∧
    (s.encoder_button_state = 3 →
      (update_inputs s raw false now).encoder_button_state = 3 ∧
      (update_inputs s raw false now).bank 0x63 = 3) := by
  constructor
  · intro h0 h300
    refine ⟨?_, ?_, ?_⟩ <;> simp [update_inputs, h0, h300, bupd]
  · intro h3
    refine ⟨?_, ?_⟩ <;> simp [update_inputs, h3, bupd]

/-- C6 witness: the double-click entry at a 100 ms re-press, and its
persistence while held 1100 ms after the press. -/
theorem C6_double_click_witness :
    ((update_inputs { initMachine with encoder_button_last_release := 1000 }
        (fun _ => true) false 1100).encoder_button_state = 3 ∧
      (update_inputs { initMachine with encoder_button_last_release := 1000 }
        (fun _ => true) false 1100).bank 0x63 = 3 ∧
      (update_inputs { initMachine with encoder_button_last_release := 1000 }
        (fun _ => true) false 1100).encoder_button_press_time = 1100) ∧
    ((update_inputs { initMachine with encoder_button_state := 3 }
        (fun _ => true) false 2200).encoder_button_state = 3 ∧
      (update_inputs { initMachine with encoder_button_state := 3 }
        (fun _ => true) false 2200).bank 0x63 = 3) :=
  ⟨(C6_double_click { initMachine with encoder_button_last_release := 1000 }
      (fun _ => true) 1100).1 (by decide) (by decide),
    (C6_double_click { initMachine with encoder_button_state := 3 }
      (fun _ => true) 2200).2 (by decide)⟩

/-! ### C3 -/

/-- C3: the debounce window is the compiled-in 50 ms constant
(INPUT_DEBOUNCE_MS), not the CONFIG_DEBOUNCE register.  After the host
stores 0 at 0x71, channel 0 reads low (differing from its stable bit)
with 10 ms elapsed since its last change: with the claimed window (the
stored value, 0 ms) the sample must be committed, but the code keeps the
stable bit at 1 because 10 < 50; the same sample at 60 ms elapsed is
committed.  So a host write to 0x71 does not change the window. -/
theorem C3_config_debounce_ignored :
    (i2c_register_write initMachine 0x71 0).2.bank 0x71 = 0 ∧
    (i2c_register_write initMachine 0x71 0).2.input_last_change 0 = 0 ∧
    (update_inputs (i2c_register_write initMachine 0x71 0).2
        (fun i => i ≠ 0) true 10).input_state_low = 0xFF ∧
    (update_inputs (i2c_register_write initMachine 0x71 0).2
        (fun i => i ≠ 0) true 10).bank 0x50 = 0xFF ∧
    (update_inputs (i2c_register_write initMachine 0x71 0).2
        (fun i => i ≠ 0) true 60).input_state_low = 0xFE := by
  decide

/-! ### C10 -/

lemma pwm_vu_bank_ne (s : Machine) (ctrl a : Nat) (h : a ≠ 0x11) :
    (pwm_vu s ctrl).bank a = s.bank a := by
  unfold pwm_vu
  split_ifs <;> simp [bupd, h]

lemma pwm_backlight_bank_ne (s : Machine) (ctrl a : Nat) (h : a ≠ 0x11) :
    (pwm_backlight s ctrl).bank a = s.bank a := by
  unfold pwm_backlight
  split_ifs <;> simp [bupd, h]

lemma pwm_tape_bank_ne (s : Machine) (ctrl a : Nat) (h : a ≠ 0x11) :
    (pwm_tape s ctrl).bank a = s.bank a := by
  unfold pwm_tape
  split_ifs <;> simp [bupd, h]

lemma update_encoder_bank60 (s : Machine) :
    (update_encoder s).bank 0x60 = s.encoder_position % 256 := by
  simp only [update_encoder]
  split_ifs <;> simp [bupd]

lemma update_encoder_bank61 (s : Machine) :
    (update_encoder s).bank 0x61 = s.encoder_position / 256 % 256 := by
  simp only [update_encoder]
  split_ifs <;> simp [bupd]

lemma update_inputs_encoder_position (s : Machine) (raw : Nat → Bool)
    (btnPin : Bool) (now : Nat) :
    (update_inputs s raw btnPin now).encoder_position = s.encoder_position :=
  rfl

/-- C10: the soft-reset command (0x01) reinitializes only the register
bank: the private encoder state (position, delta accumulator, quadrature
state) is untouched, the reinitialized bank holds zeros at 0x60/0x61,
and the first tick after the reset republishes the pre-reset encoder
position to 0x60/0x61 even though no encoder edges occurred. -/
theorem C10_soft_reset_keeps_encoder (s : Machine) (raw : Nat → Bool)
    (btnPin : Bool) (now : Nat) :
    (i2c_execute_command s 0x01).1 = true ∧
    (i2c_execute_command s 0x01).2.encoder_position = s.encoder_position ∧
    (i2c_execute_command s 0x01).2.encoder_delta = s.encoder_delta ∧
    (i2c_execute_command s 0x01).2.encoder_state = s.encoder_state ∧
    (i2c_execute_command s 0x01).2.bank 0x60 = 0 ∧
    (i2c_execute_command s 0x01).2.bank 0x61 = 0 ∧
    (tick (i2c_execute_command s 0x01).2 raw btnPin now).bank 0x60
      = s.encoder_position % 256 ∧
    (tick (i2c_execute_command s 0x01).2 raw btnPin now).bank 0x61
      = s.encoder_position / 256 % 256 := by
  refine ⟨rfl, rfl, rfl, rfl, by simp [i2c_execute_command, i2c_registers_init,
    init_bank], by simp [i2c_execute_command, i2c_registers_init, init_bank],
    ?_, ?_⟩ <;>
  · simp only [tick, update_pwm_outputs]
    rw [pwm_tape_bank_ne _ _ _ (by decide), pwm_backlight_bank_ne _ _ _ (by decide),
      pwm_vu_bank_ne _ _ _ (by decide)]
    first
      | rw [update_encoder_bank60, update_inputs_encoder_position]
      | rw [update_encoder_bank61, update_inputs_encoder_position]
    rfl

end RollStreamer
